import Mathlib

/-!
# Verification of the UQ Lakes bus-tracker data pipeline

A shallow embedding, in Lean 4, of the join/filter/merge/cache logic of
`translink-parser.js`.  JavaScript strings are modelled as Lean strings; the
relational operators on strings are modelled by an explicit code-unit
lexicographic comparison (JavaScript compares strings by UTF-16 code units;
all data here is ASCII, so code-unit order and code-point order agree).
Machine numbers are modelled as `Nat`/`Int` (all numbers involved are
integers, and JavaScript represents integers of this size exactly).
-/

namespace BusParser

/-! ## JavaScript string comparison

JavaScript's relational operators on strings compare lexicographically by
code unit; a strict prefix is smaller.  The operators are interdefinable:
a >= b is the negation of a < b, and a <= b is the negation of b < a.
-/

/-- Strict lexicographic comparison of char lists by code point, the model of
the JavaScript less-than operator on strings. -/
def chLt : List Char → List Char → Bool
  | _, [] => false
  | [], _ :: _ => true
  | a :: as, b :: bs =>
    if a.toNat < b.toNat then true
    else if b.toNat < a.toNat then false
    else chLt as bs

/-- JavaScript strict less-than on strings. -/
def jsLt (a b : String) : Bool :=
  chLt a.data b.data

/-- JavaScript strict greater-than on strings. -/
def jsGt (a b : String) : Bool :=
  jsLt b a

/-- JavaScript greater-or-equal on strings: the negation of less-than. -/
def jsGe (a b : String) : Bool :=
  !(jsLt a b)

/-- JavaScript less-or-equal on strings: the negation of greater-than. -/
def jsLe (a b : String) : Bool :=
  !(jsLt b a)

theorem chLt_cons {x y : Char} {xs ys : List Char} :
    chLt (x :: xs) (y :: ys) =
      if x.toNat < y.toNat then true
      else if y.toNat < x.toNat then false
      else chLt xs ys :=
  rfl

theorem chLt_cons_iff {x y : Char} {xs ys : List Char} :
    chLt (x :: xs) (y :: ys) = true ↔
      x.toNat < y.toNat ∨ (x.toNat = y.toNat ∧ chLt xs ys = true) := by
  rw [chLt_cons]
  rcases Nat.lt_trichotomy x.toNat y.toNat with h | h | h
  · simp [h, Nat.lt_asymm h]
  · simp [h, Nat.lt_irrefl]
  · simp [h, Nat.lt_asymm h, Nat.ne_of_gt h]

theorem chLt_irrefl (l : List Char) : chLt l l = false := by
  induction l with
  | nil => rfl
  | cons a as ih => simp [chLt, ih]

theorem chLt_trans : ∀ {a b c : List Char},
    chLt a b = true → chLt b c = true → chLt a c = true := by
  intro a
  induction a with
  | nil =>
    intro b c hab hbc
    cases b with
    | nil => simp [chLt] at hab
    | cons y ys =>
      cases c with
      | nil => simp [chLt] at hbc
      | cons z zs => rfl
  | cons x xs ih =>
    intro b c hab hbc
    cases b with
    | nil => simp [chLt] at hab
    | cons y ys =>
      cases c with
      | nil => simp [chLt] at hbc
      | cons z zs =>
        rw [chLt_cons_iff] at hab hbc ⊢
        rcases hab with h1 | ⟨h1, h1r⟩ <;> rcases hbc with h2 | ⟨h2, h2r⟩
        · exact Or.inl (Nat.lt_trans h1 h2)
        · exact Or.inl (h2 ▸ h1)
        · exact Or.inl (h1 ▸ h2)
        · exact Or.inr ⟨h1.trans h2, ih h1r h2r⟩

theorem chLt_asymm {a b : List Char} (h : chLt a b = true) : chLt b a = false := by
  cases hba : chLt b a with
  | false => rfl
  | true => exact absurd (chLt_trans h hba) (by simp [chLt_irrefl])

theorem chLt_eq_of_not_lt : ∀ {a b : List Char},
    chLt a b = false → chLt b a = false → a = b := by
  intro a
  induction a with
  | nil =>
    intro b hab _
    cases b with
    | nil => rfl
    | cons y ys => simp [chLt] at hab
  | cons x xs ih =>
    intro b hab hba
    cases b with
    | nil => simp [chLt] at hba
    | cons y ys =>
      have hab' := hab
      have hba' := hba
      rw [chLt_cons] at hab' hba'
      rcases Nat.lt_trichotomy x.toNat y.toNat with h | h | h
      · simp [h] at hab'
      · have hx : x = y := by
          apply Char.ext
          exact UInt32.toNat.inj h
        subst hx
        simp [Nat.lt_irrefl] at hab' hba'
        rw [ih hab' hba']
      · simp [h, Nat.lt_asymm h] at hba'

theorem jsLe_refl (a : String) : jsLe a a = true := by
  simp [jsLe, jsLt, chLt_irrefl]

theorem jsLe_total (a b : String) : (jsLe a b || jsLe b a) = true := by
  simp only [jsLe, jsLt, Bool.or_eq_true, Bool.not_eq_true']
  by_contra h
  push_neg at h
  obtain ⟨h1, h2⟩ := h
  rw [ne_eq, Bool.not_eq_false] at h1 h2
  exact absurd (chLt_asymm h1) (by simp [h2])

theorem jsLe_trans {a b c : String} (h1 : jsLe a b = true) (h2 : jsLe b c = true) :
    jsLe a c = true := by
  simp only [jsLe, jsLt, Bool.not_eq_true'] at h1 h2 ⊢
  cases hca : chLt c.data a.data with
  | false => rfl
  | true =>
    exfalso
    cases hbc : chLt b.data c.data with
    | true => exact absurd (chLt_trans hbc hca) (by simp [h1])
    | false =>
      have hbceq : b.data = c.data := chLt_eq_of_not_lt hbc h2
      rw [hbceq] at h1
      simp [hca] at h1

theorem jsLe_antisymm {a b : String} (h1 : jsLe a b = true) (h2 : jsLe b a = true) :
    a = b := by
  simp only [jsLe, jsLt, Bool.not_eq_true'] at h1 h2
  exact String.ext (chLt_eq_of_not_lt h2 h1)

/-! ## Global constants of the program -/

/-- The UQ Lakes stop identifiers (source line 12). -/
def lakesStopId : List String :=
  ["1853", "1878", "1882", "1947"]

/-- The day-name array indexed by the JavaScript day-of-week number
(source line 17, with 0 = Sunday). -/
inductive Day where
  | sunday | monday | tuesday | wednesday | thursday | friday | saturday
deriving DecidableEq

/-! ## Static schedule records

Records parsed from the four tabular files; every field is a string, as
produced by the column-keyed CSV parser.  Only the fields read by the
pipeline are modelled.
-/

/-- A record of routes.txt. -/
structure RouteRecord where
  route_id : String
  route_short_name : String
  route_long_name : String
deriving DecidableEq

/-- A record of trips.txt. -/
structure TripRecord where
  trip_id : String
  route_id : String
  service_id : String
  trip_headsign : String
deriving DecidableEq

/-- A record of calendar.txt. -/
structure CalendarRecord where
  service_id : String
  monday : String
  tuesday : String
  wednesday : String
  thursday : String
  friday : String
  saturday : String
  sunday : String
  start_date : String
  end_date : String
deriving DecidableEq

/-- The dynamic property access entry[day] on a calendar record, where day
ranges over the strings of the days array. -/
def CalendarRecord.dayFlag (entry : CalendarRecord) : Day → String
  | .sunday => entry.sunday
  | .monday => entry.monday
  | .tuesday => entry.tuesday
  | .wednesday => entry.wednesday
  | .thursday => entry.thursday
  | .friday => entry.friday
  | .saturday => entry.saturday

/-- A record of stop_times.txt (pre-filtered at load to UQ Lakes stop ids). -/
structure StopTimeRecord where
  trip_id : String
  stop_id : String
  arrival_time : String
deriving DecidableEq

/-! ## Derived row shapes

The pipeline builds JavaScript objects with fixed key sets; each key set is
modelled as a structure.  Spreading a row into a wider object is modelled
with structure extension.
-/

/-- The object built by joinRouteTrip (source lines 170-176): keys
Route Short Name, Route Long Name, Service ID, Trip ID, Heading Sign. -/
structure RouteTripRow where
  route_short_name : String
  route_long_name : String
  service_id : String
  trip_id : String
  heading_sign : String
deriving DecidableEq

/-- The object built by joinTime (source lines 196-199): a RouteTripRow
spread plus Scheduled Arrival Time. -/
structure ScheduledDeparture extends RouteTripRow where
  scheduled_arrival_time : String
deriving DecidableEq

/-- The object built by joinLiveTime (source lines 268-271): a
ScheduledDeparture spread plus Live Arrival Time (a clock string or the
sentinel "No Live Data"). -/
structure LiveTimeRow extends ScheduledDeparture where
  live_arrival_time : String
deriving DecidableEq

/-! ## Join engine -/

/-- joinRouteTrip (source lines 166-181): for each trip, find its route by
route_id; keep only the trips with a match, projecting the joined fields. -/
def joinRouteTrip (routes : List RouteRecord) (trips : List TripRecord) :
    List RouteTripRow :=
  (trips.map (fun trip =>
    match routes.find? (fun rt => rt.route_id == trip.route_id) with
    | some route =>
        some { route_short_name := route.route_short_name
               route_long_name := route.route_long_name
               service_id := trip.service_id
               trip_id := trip.trip_id
               heading_sign := trip.trip_headsign }
    | none => none)).filterMap id

/-- joinTime (source lines 192-204): for each stop-time row, find a joined
route row with the same Trip ID whose arrival time lies between startTime
and endTime (the window test is part of the find predicate but does not
depend on the route row); keep one output row per matching stop-time row. -/
def joinTime (routes : List RouteTripRow) (stops : List StopTimeRecord)
    (startTime endTime : String) : List ScheduledDeparture :=
  (stops.map (fun stop =>
    match routes.find? (fun route =>
        stop.trip_id == route.trip_id &&
        jsGe stop.arrival_time startTime &&
        jsLe stop.arrival_time endTime) with
    | some route =>
        some { toRouteTripRow := route
               scheduled_arrival_time := stop.arrival_time }
    | none => none)).filterMap id

/-- filterUsingCalendar (source lines 215-219): keep a route row iff some
calendar entry has the same service_id, flags the given day with "1", and
has start_date <= date <= end_date (lexical string comparison). -/
def filterUsingCalendar (routes : List RouteTripRow)
    (calendarArray : List CalendarRecord) (date : String) (day : Day) :
    List RouteTripRow :=
  routes.filter (fun route =>
    (calendarArray.find? (fun entry =>
      entry.service_id == route.service_id &&
      entry.dayFlag day == "1" &&
      jsGe date entry.start_date &&
      jsLe date entry.end_date)).isSome)

/-! ## JSON values

A model of the JSON data handled by the external JSON.stringify builtin.
The vehicle-position payload carried in each entity is an arbitrary JSON
object the pipeline never inspects, so it is kept as a Json value.
-/

/-- JSON values. -/
inductive Json where
  | null
  | bool (b : Bool)
  | num (n : Int)
  | str (s : String)
  | arr (elems : List Json)
  | obj (fields : List (String × Json))

/-- Escape a character for a JSON string literal. -/
def escapeJsonChar (c : Char) : String :=
  if c = '"' then "\\\""
  else if c = '\\' then "\\\\"
  else if c = '\n' then "\\n"
  else if c = '\r' then "\\r"
  else if c = '\t' then "\\t"
  else String.singleton c

/-- Escape a string for a JSON string literal. -/
def escapeJsonString (s : String) : String :=
  s.data.foldl (fun acc c => acc ++ escapeJsonChar c) ""

mutual

/-- The external JSON.stringify builtin on the modelled JSON values. -/
def Json.stringify : Json → String
  | .null => "null"
  | .bool b => if b then "true" else "false"
  | .num n => toString n
  | .str s => "\"" ++ escapeJsonString s ++ "\""
  | .arr xs => "[" ++ String.intercalate "," (Json.stringifyList xs) ++ "]"
  | .obj fs => "\x7b" ++ String.intercalate "," (Json.stringifyFields fs) ++ "\x7d"

/-- Serialize the elements of a JSON array. -/
def Json.stringifyList : List Json → List String
  | [] => []
  | x :: xs => Json.stringify x :: Json.stringifyList xs

/-- Serialize the fields of a JSON object. -/
def Json.stringifyFields : List (String × Json) → List String
  | [] => []
  | (k, v) :: fs =>
      ("\"" ++ escapeJsonString k ++ "\":" ++ Json.stringify v) :: Json.stringifyFields fs

end

/-! ## Live feed entities

The shapes of the two feeds (spec section 6): trip-update entities
(tripUpdate.trip.tripId, tripUpdate.stopTimeUpdate[].stopId,
tripUpdate.stopTimeUpdate[].departure.time) and vehicle-position entities
(vehicle.trip.tripId, vehicle.position).
-/

/-- A trip descriptor inside a live entity. -/
structure TripDescriptor where
  tripId : String
deriving DecidableEq

/-- The departure object of a stop-time update, holding an epoch-seconds
timestamp. -/
structure DepartureTime where
  time : Int
deriving DecidableEq

/-- One stop-time update of a trip-update entity. -/
structure StopTimeUpdate where
  stopId : String
  departure : DepartureTime
deriving DecidableEq

/-- The tripUpdate object of a trip-update entity. -/
structure TripUpdate where
  trip : TripDescriptor
  stopTimeUpdate : List StopTimeUpdate
deriving DecidableEq

/-- One entity of the trip-updates feed. -/
structure TripUpdateEntity where
  tripUpdate : TripUpdate
deriving DecidableEq

/-- The vehicle object of a vehicle-position entity; the position is an
uninspected JSON object. -/
structure Vehicle where
  trip : TripDescriptor
  position : Json

/-- One entity of the vehicle-positions feed. -/
structure VehicleEntity where
  vehicle : Vehicle

/-- The trip-updates feed payload: header timestamp (epoch seconds) and
entity list. -/
structure TripUpdatesFeed where
  timestamp : Int
  entity : List TripUpdateEntity

/-- The vehicle-positions feed payload: header timestamp (epoch seconds)
and entity list. -/
structure VehiclePositionsFeed where
  timestamp : Int
  entity : List VehicleEntity

/-- The Live Position value of a final row: either the vehicle's position
object or the string sentinel "No Live Data" (the JavaScript value is a
union of the two). -/
inductive LivePosition where
  | data (p : Json)
  | noLiveData

/-- The object built by joinLivePosition (source lines 230-238): the listed
keys only.  The Trip ID key of the input row is not among them. -/
structure FinalRow where
  route_short_name : String
  route_long_name : String
  service_id : String
  heading_sign : String
  scheduled_arrival_time : String
  live_arrival_time : String
  live_position : LivePosition

/-! ## Time helpers -/

/-- padZero (source lines 281-283): string-concatenate a zero in front and
keep the last two characters. -/
def padZero (n : Nat) : String :=
  ("0" ++ toString n).takeRight 2

/-- convertTime (source lines 248-251): render an epoch-seconds timestamp
as a 24-hour local clock string.  The JavaScript code formats through
Date.toLocaleTimeString with the process timezone; the model fixes the
timezone to UTC+10 (Brisbane, the target system).  No claim depends on the
rendered value. -/
def convertTime (timestamp : Int) : String :=
  let secondsOfDay := ((timestamp + 10 * 3600) % 86400).toNat
  padZero (secondsOfDay / 3600) ++ ":" ++ padZero (secondsOfDay % 3600 / 60) ++
    ":" ++ padZero (secondsOfDay % 60)

/-- add10Mins (source lines 290-293): Date.setMinutes(minutes + 10)
normalises the stored instant with minute and hour carry (rolling the date
forward on overflow past midnight), and getHours/getMinutes read the
normalised hour and minute back; the date component never appears in the
output.  The model takes the hour and minute the Date was set to. -/
def add10Mins (hours minutes : Nat) : String :=
  let total := hours * 60 + minutes + 10
  padZero (total / 60 % 24) ++ ":" ++ padZero (total % 60) ++ ":00"

/-! ## Live merge engine -/

/-- joinLiveTime (source lines 260-274): for each row, find the first
trip-update entity with a matching tripId; inside it, find the first
stop-time update at a UQ Lakes stop; attach its departure time converted to
a clock string, or the sentinel "No Live Data". -/
def joinLiveTime (routes : List ScheduledDeparture)
    (timeArray : List TripUpdateEntity) : List LiveTimeRow :=
  routes.map (fun route =>
    let entity := timeArray.find? (fun entity =>
      entity.tripUpdate.trip.tripId == route.trip_id)
    let timeEntry : Option StopTimeUpdate :=
      match entity with
      | some e => e.tripUpdate.stopTimeUpdate.find? (fun entry =>
          lakesStopId.contains entry.stopId)
      | none => none
    { toScheduledDeparture := route
      live_arrival_time :=
        match timeEntry with
        | some t => convertTime t.departure.time
        | none => "No Live Data" })

/-- joinLivePosition (source lines 227-241): for each row, find the first
vehicle-position entity with a matching tripId and rebuild the row with the
listed keys (dropping Trip ID), attaching the position or the sentinel. -/
def joinLivePosition (routes : List LiveTimeRow)
    (posArray : List VehicleEntity) : List FinalRow :=
  routes.map (fun route =>
    let entity := posArray.find? (fun entity =>
      entity.vehicle.trip.tripId == route.trip_id)
    { route_short_name := route.route_short_name
      route_long_name := route.route_long_name
      service_id := route.service_id
      heading_sign := route.heading_sign
      scheduled_arrival_time := route.scheduled_arrival_time
      live_arrival_time := route.live_arrival_time
      live_position :=
        match entity with
        | some e => .data e.vehicle.position
        | none => .noLiveData })

/-! ## Sorting -/

/-- sortByTime (source lines 301-311): the comparator passed to
Array.prototype.sort, comparing Scheduled Arrival Time strings. -/
def sortByTime (a b : FinalRow) : Int :=
  let timeA := a.scheduled_arrival_time
  let timeB := b.scheduled_arrival_time
  if jsGt timeA timeB then 1
  else if jsLt timeA timeB then -1
  else 0

/-- finalTrips.sort(sortByTime) (source line 430).  Array.prototype.sort is
required to be stable (ECMAScript 2019 and later) and orders by the
comparator; a stable comparator sort is uniquely determined, and is
modelled by the stable mergeSort. -/
def sortFinal (finalTrips : List FinalRow) : List FinalRow :=
  finalTrips.mergeSort (fun a b => sortByTime a b ≤ 0)

/-! ## Live feed cache

The on-disk cache directory is modelled as a map from filename to the
stored file content (None when the file does not exist).
-/

/-- readCache (source lines 329-342): return the file content in a
singleton array, or an empty array when the file does not exist (ENOENT). -/
def readCache (filename : String) (fs : String → Option String) : List String :=
  match fs filename with
  | none => []
  | some data => [data]

/-- saveCache (source lines 349-352): overwrite the file with
JSON.stringify of the data.  The write failure path only logs, so the
model writes unconditionally. -/
def saveCache (filename : String) (data : Json) (fs : String → Option String) :
    String → Option String :=
  fun name => if name = filename then some (Json.stringify data) else fs name

/-! ## JSON encoding of the live feed values

What the external JSON.stringify builtin sees of the in-memory feed
objects when saveCache serialises them.
-/

/-- The JSON shape of a stop-time update. -/
def StopTimeUpdate.toJson (u : StopTimeUpdate) : Json :=
  .obj [("stopId", .str u.stopId), ("departure", .obj [("time", .num u.departure.time)])]

/-- The JSON shape of a trip-update entity. -/
def TripUpdateEntity.toJson (e : TripUpdateEntity) : Json :=
  .obj [("tripUpdate", .obj
    [("trip", .obj [("tripId", .str e.tripUpdate.trip.tripId)]),
     ("stopTimeUpdate", .arr (e.tripUpdate.stopTimeUpdate.map StopTimeUpdate.toJson))])]

/-- The JSON shape of a vehicle-position entity. -/
def VehicleEntity.toJson (e : VehicleEntity) : Json :=
  .obj [("vehicle", .obj
    [("trip", .obj [("tripId", .str e.vehicle.trip.tripId)]),
     ("position", e.vehicle.position)])]

/-- The JSON shape of the whole vehicle-positions feed payload (saveCache
receives the entire fetched object for this feed). -/
def VehiclePositionsFeed.toJson (f : VehiclePositionsFeed) : Json :=
  .obj [("header", .obj [("timestamp", .num f.timestamp)]),
        ("entity", .arr (f.entity.map VehicleEntity.toJson))]

/-! ## The live-data step of busTracker (source lines 389-424) -/

/-- A JavaScript value whose length property the refetch condition reads:
either a Promise (line 391 calls readCache without await, so the value is a
pending Promise and its length property is undefined) or an array of file
contents. -/
inductive JsVal where
  | promise
  | strArr (elems : List String)

/-- Truthiness of the negated length access !x.length: undefined is falsy,
a number is falsy exactly when it is 0. -/
def JsVal.lengthFalsy : JsVal → Bool
  | .promise => true
  | .strArr xs => xs.length == 0

/-- The staleness expression of source line 412:
(vehiclePositionArray.header.timestamp - currentDate.getTime()) / 60000 >= 5.
The header timestamp is in epoch seconds and getTime() is in epoch
milliseconds; both are integers and JavaScript division is exact real
division, so the comparison is equivalent to the integer inequality below. -/
def staleCheck (vpHeaderTimestamp nowMs : Int) : Bool :=
  decide (vpHeaderTimestamp - nowMs ≥ 5 * 60000)

/-- The outcome of the live-data step: the cache contents afterwards, the
two payload arrays the query continues with (file contents as read back;
the subsequent JSON.parse of a singleton array parses its only element),
and whether the step ran the branch that fetches both feeds from the
network. -/
structure StepResult where
  cache : String → Option String
  tripUpdateArray : List String
  vehiclePositionArray : List String
  fetched : Bool

/-- The branch of busTracker that fetches both feeds (source lines 396-405
and the identical lines 413-422): filter the trip-update entities to those
with a stop-time update at a UQ Lakes stop, persist the filtered entity
array and the whole vehicle-positions payload, then read both files back. -/
def fetchBranch (fs : String → Option String) (tripUpdatesData : TripUpdatesFeed)
    (vehiclePositionsData : VehiclePositionsFeed) : StepResult :=
  let filteredTripUpdates := tripUpdatesData.entity.filter (fun entity =>
    entity.tripUpdate.stopTimeUpdate.any (fun e => lakesStopId.contains e.stopId))
  let fs1 := saveCache "trip_updates"
    (Json.arr (filteredTripUpdates.map TripUpdateEntity.toJson)) fs
  let fs2 := saveCache "vehicle_positions" vehiclePositionsData.toJson fs1
  { cache := fs2
    tripUpdateArray := readCache "trip_updates" fs2
    vehiclePositionArray := readCache "vehicle_positions" fs2
    fetched := true }

/-- The live-data step of busTracker (source lines 389-424).  Line 391
assigns readCache('trip_updates') without await, so the first conjunct of
the refetch condition reads the length of a Promise.  The parameter
cachedVpHeaderTimestamp stands for the header timestamp that
JSON.parse(vehiclePositionArray) would yield in the else branch (the model
does not implement the external JSON.parse; in that branch the source
would in fact throw, since it applies JSON.parse to the Promise held in
tripUpdateArray).  nowMs models currentDate.getTime(), the clock captured
once before the query loop. -/
def liveDataStep (fs : String → Option String) (tripUpdatesData : TripUpdatesFeed)
    (vehiclePositionsData : VehiclePositionsFeed)
    (cachedVpHeaderTimestamp nowMs : Int) : StepResult :=
  let tripUpdateArray : JsVal := .promise
  let vehiclePositionArray := readCache "vehicle_positions" fs
  if tripUpdateArray.lengthFalsy || (JsVal.strArr vehiclePositionArray).lengthFalsy then
    fetchBranch fs tripUpdatesData vehiclePositionsData
  else if staleCheck cachedVpHeaderTimestamp nowMs then
    fetchBranch fs tripUpdatesData vehiclePositionsData
  else
    { cache := fs
      tripUpdateArray := readCache "trip_updates" fs
      vehiclePositionArray := vehiclePositionArray
      fetched := false }

/-! ## Helper lemmas -/

theorem filterMap_id_map {α β : Type} (f : α → Option β) (l : List α) :
    (l.map f).filterMap id = l.filterMap f := by
  induction l with
  | nil => rfl
  | cons x xs ih => simp only [List.map_cons, List.filterMap_cons, id_eq, ih]

theorem length_filterMap_eq_countP {α β : Type} (f : α → Option β) (l : List α) :
    (l.filterMap f).length = l.countP (fun a => (f a).isSome) := by
  induction l with
  | nil => rfl
  | cons x xs ih =>
    cases hfx : f x with
    | none => simp [List.filterMap_cons, hfx, ih, List.countP_cons]
    | some b => simp [List.filterMap_cons, hfx, ih, List.countP_cons]

theorem length_filterMap_id_map {α β : Type} (f : α → Option β) (l : List α) :
    ((l.map f).filterMap id).length = l.countP (fun a => (f a).isSome) := by
  rw [filterMap_id_map, length_filterMap_eq_countP]

theorem mem_filterMap_id_map {α β : Type} (f : α → Option β) (l : List α) (b : β) :
    b ∈ (l.map f).filterMap id ↔ ∃ a ∈ l, f a = some b := by
  rw [filterMap_id_map]
  exact List.mem_filterMap

theorem any_and_const {α : Type} (l : List α) (p : α → Bool) (c : Bool) :
    (l.any fun a => p a && c) = (l.any p && c) := by
  induction l with
  | nil => simp
  | cons x xs ih => cases c <;> simp_all

theorem find?_isSome_eq_any {α : Type} (l : List α) (p : α → Bool) :
    (l.find? p).isSome = l.any p := by
  induction l with
  | nil => rfl
  | cons x xs ih => cases hx : p x <;> simp [List.find?_cons, hx, ih]

/-! ## Sample records used in the boundary-case conjuncts -/

/-- A joined route/trip row for trip T1 of service S1. -/
def rowEx : RouteTripRow :=
  ⟨"66", "UQ Lakes", "S1", "T1", "City"⟩

/-- A calendar record for service S1, active on Mondays, valid over the
year 2024. -/
def calEx : CalendarRecord :=
  ⟨"S1", "1", "0", "0", "0", "0", "0", "0", "20240101", "20241231"⟩

/-- A stop-time record for trip T1 at a UQ Lakes stop, at the given
arrival time. -/
def stEx (t : String) : StopTimeRecord :=
  ⟨"T1", "1853", t⟩

/-! ## Claims about the join engine -/

/-- C2: filterUsingCalendar keeps a departure iff some calendar record with
the same service_id has the flag of the queried weekday active and contains
the query date in [start_date, end_date] inclusive under lexical YYYYMMDD
comparison; both boundary dates are included, and dates one day outside
either boundary are excluded. -/
theorem filterUsingCalendar_spec :
    (∀ (routes : List RouteTripRow) (calendarArray : List CalendarRecord)
        (date : String) (day : Day) (d : RouteTripRow),
      d ∈ filterUsingCalendar routes calendarArray date day ↔
        d ∈ routes ∧ ∃ entry ∈ calendarArray,
          entry.service_id = d.service_id ∧ entry.dayFlag day = "1" ∧
          jsGe date entry.start_date = true ∧ jsLe date entry.end_date = true)
    ∧ filterUsingCalendar [rowEx] [calEx] "20240101" Day.monday = [rowEx]
    ∧ filterUsingCalendar [rowEx] [calEx] "20241231" Day.monday = [rowEx]
    ∧ filterUsingCalendar [rowEx] [calEx] "20231231" Day.monday = []
    ∧ filterUsingCalendar [rowEx] [calEx] "20250101" Day.monday = [] := by
  refine ⟨?_, by decide, by decide, by decide, by decide⟩
  intro routes calendarArray date day d
  rw [filterUsingCalendar, List.mem_filter, List.find?_isSome]
  simp [Bool.and_eq_true, beq_iff_eq, and_assoc]

/-- C3: joinTime keeps one output row per stop-time row that has a joined
departure with the same trip id and an arrival time inside
[startTime, endTime] inclusive under lexical comparison; every output row
originates from such a stop-time row; with window [08:00:00, 08:10:00] the
boundary arrival times 08:00:00 and 08:10:00 are kept and 07:59:59 and
08:10:01 are dropped. -/
theorem joinTime_spec :
    (∀ (routes : List RouteTripRow) (stops : List StopTimeRecord)
        (startTime endTime : String),
      (joinTime routes stops startTime endTime).length =
        stops.countP (fun stop =>
          routes.any (fun route => stop.trip_id == route.trip_id) &&
          jsGe stop.arrival_time startTime && jsLe stop.arrival_time endTime))
    ∧ (∀ routes stops₁ stops₂ startTime endTime,
        joinTime routes (stops₁ ++ stops₂) startTime endTime =
          joinTime routes stops₁ startTime endTime ++
          joinTime routes stops₂ startTime endTime)
    ∧ (∀ routes stops startTime endTime x,
        x ∈ joinTime routes stops startTime endTime →
        ∃ stop ∈ stops, x.scheduled_arrival_time = stop.arrival_time ∧
          jsGe stop.arrival_time startTime = true ∧
          jsLe stop.arrival_time endTime = true ∧
          ∃ route ∈ routes, route.trip_id = stop.trip_id ∧ x.toRouteTripRow = route)
    ∧ joinTime [rowEx] [stEx "08:00:00"] "08:00:00" "08:10:00" = [⟨rowEx, "08:00:00"⟩]
    ∧ joinTime [rowEx] [stEx "08:10:00"] "08:00:00" "08:10:00" = [⟨rowEx, "08:10:00"⟩]
    ∧ joinTime [rowEx] [stEx "07:59:59"] "08:00:00" "08:10:00" = []
    ∧ joinTime [rowEx] [stEx "08:10:01"] "08:00:00" "08:10:00" = [] := by
  refine ⟨?_, ?_, ?_, by decide, by decide, by decide, by decide⟩
  · intro routes stops startTime endTime
    rw [joinTime, length_filterMap_id_map]
    apply List.countP_congr
    intro stop _
    cases hfind : routes.find? (fun route =>
        stop.trip_id == route.trip_id &&
        jsGe stop.arrival_time startTime &&
        jsLe stop.arrival_time endTime) with
    | none =>
        simp only [hfind]
        rw [← any_and_const, ← any_and_const, ← find?_isSome_eq_any, hfind]
        exact Iff.rfl
    | some route =>
        simp only [hfind]
        rw [← any_and_const, ← any_and_const, ← find?_isSome_eq_any, hfind]
        exact Iff.rfl
  · intro routes stops₁ stops₂ startTime endTime
    simp [joinTime, List.filterMap_append]
  · intro routes stops startTime endTime x hx
    rw [joinTime, mem_filterMap_id_map] at hx
    obtain ⟨stop, hstop, hsome⟩ := hx
    cases hfind : routes.find? (fun route =>
        stop.trip_id == route.trip_id &&
        jsGe stop.arrival_time startTime &&
        jsLe stop.arrival_time endTime) with
    | none => rw [hfind] at hsome; exact absurd hsome (by simp)
    | some route =>
        rw [hfind] at hsome
        have hpred := List.find?_some hfind
        have hmem := List.mem_of_find?_eq_some hfind
        simp only [Bool.and_eq_true, beq_iff_eq] at hpred
        obtain ⟨⟨htrip, hge⟩, hle⟩ := hpred
        have hx' : x = { toRouteTripRow := route, scheduled_arrival_time := stop.arrival_time } := by
          cases hsome; rfl
        refine ⟨stop, hstop, by rw [hx'], hge, hle, route, hmem, htrip.symm, by rw [hx']⟩

/-- C4: joinRouteTrip keeps exactly the trips whose route_id matches some
route record (so the output is never longer than the trip list), and every
output row carries the matched route's names together with the trip's
service id, trip id and headsign. -/
theorem joinRouteTrip_spec :
    (∀ (routes : List RouteRecord) (trips : List TripRecord),
      (joinRouteTrip routes trips).length =
        trips.countP (fun trip => routes.any (fun rt => rt.route_id == trip.route_id)))
    ∧ (∀ (routes : List RouteRecord) (trips : List TripRecord),
        (joinRouteTrip routes trips).length ≤ trips.length)
    ∧ (∀ (routes : List RouteRecord) (trips : List TripRecord) (x : RouteTripRow),
        x ∈ joinRouteTrip routes trips →
        ∃ trip ∈ trips, ∃ route ∈ routes, route.route_id = trip.route_id ∧
          x = { route_short_name := route.route_short_name
                route_long_name := route.route_long_name
                service_id := trip.service_id
                trip_id := trip.trip_id
                heading_sign := trip.trip_headsign }) := by
  have hlen : ∀ (routes : List RouteRecord) (trips : List TripRecord),
      (joinRouteTrip routes trips).length =
        trips.countP (fun trip => routes.any (fun rt => rt.route_id == trip.route_id)) := by
    intro routes trips
    rw [joinRouteTrip, length_filterMap_id_map]
    apply List.countP_congr
    intro trip _
    cases hfind : routes.find? (fun rt => rt.route_id == trip.route_id) with
    | none =>
        simp only [hfind]
        rw [← find?_isSome_eq_any, hfind]
        exact Iff.rfl
    | some route =>
        simp only [hfind]
        rw [← find?_isSome_eq_any, hfind]
        exact Iff.rfl
  refine ⟨hlen, ?_, ?_⟩
  · intro routes trips
    rw [hlen]
    exact List.countP_le_length _
  · intro routes trips x hx
    rw [joinRouteTrip, mem_filterMap_id_map] at hx
    obtain ⟨trip, htrip, hsome⟩ := hx
    cases hfind : routes.find? (fun rt => rt.route_id == trip.route_id) with
    | none => rw [hfind] at hsome; exact absurd hsome (by simp)
    | some route =>
        rw [hfind] at hsome
        have hpred := List.find?_some hfind
        have hmem := List.mem_of_find?_eq_some hfind
        rw [beq_iff_eq] at hpred
        cases hsome
        exact ⟨trip, htrip, route, hmem, hpred, rfl⟩

/-- Witness for C3: the origin clause at a concrete qualifying row. -/
theorem joinTime_spec_witness :
    ∃ stop ∈ [stEx "08:05:00"],
      (⟨rowEx, "08:05:00"⟩ : ScheduledDeparture).scheduled_arrival_time = stop.arrival_time ∧
      jsGe stop.arrival_time "08:00:00" = true ∧
      jsLe stop.arrival_time "08:10:00" = true ∧
      ∃ route ∈ [rowEx], route.trip_id = stop.trip_id ∧
        (⟨rowEx, "08:05:00"⟩ : ScheduledDeparture).toRouteTripRow = route :=
  joinTime_spec.2.2.1 [rowEx] [stEx "08:05:00"] "08:00:00" "08:10:00"
    ⟨rowEx, "08:05:00"⟩ (by decide)

/-- Witness for C4: the origin clause at a concrete matched trip. -/
theorem joinRouteTrip_spec_witness :
    ∃ trip ∈ [(⟨"T1", "R1", "S1", "City" ⟩ : TripRecord)],
      ∃ route ∈ [(⟨"R1", "66", "UQ Lakes"⟩ : RouteRecord)],
        route.route_id = trip.route_id ∧
        (⟨"66", "UQ Lakes", "S1", "T1", "City"⟩ : RouteTripRow) =
          { route_short_name := route.route_short_name
            route_long_name := route.route_long_name
            service_id := trip.service_id
            trip_id := trip.trip_id
            heading_sign := trip.trip_headsign } :=
  joinRouteTrip_spec.2.2 [⟨"R1", "66", "UQ Lakes"⟩] [⟨"T1", "R1", "S1", "City"⟩]
    ⟨"66", "UQ Lakes", "S1", "T1", "City"⟩ (by decide)

/-! ## Claims about the live merge engine -/

/-- The displayed fields of a pre-position-merge row, in source key order. -/
def LiveTimeRow.displayFields (r : LiveTimeRow) :
    String × String × String × String × String × String :=
  (r.route_short_name, r.route_long_name, r.service_id, r.heading_sign,
   r.scheduled_arrival_time, r.live_arrival_time)

/-- The displayed fields of a final row, in source key order. -/
def FinalRow.displayFields (r : FinalRow) :
    String × String × String × String × String × String :=
  (r.route_short_name, r.route_long_name, r.service_id, r.heading_sign,
   r.scheduled_arrival_time, r.live_arrival_time)

/-- C5: both live merges are left joins: the output has exactly one row per
input departure, in order, and each row either carries live data found by
trip id (and, for the time merge, a UQ Lakes stop-time update) or the
"No Live Data" sentinel. -/
theorem joinLive_left_join_spec :
    (∀ (routes : List ScheduledDeparture) (timeArray : List TripUpdateEntity),
      (joinLiveTime routes timeArray).length = routes.length)
    ∧ (∀ (routes : List LiveTimeRow) (posArray : List VehicleEntity),
      (joinLivePosition routes posArray).length = routes.length)
    ∧ (∀ (routes : List ScheduledDeparture) (timeArray : List TripUpdateEntity)
        (i : Nat),
      ((joinLiveTime routes timeArray)[i]?).map LiveTimeRow.toScheduledDeparture =
        routes[i]?)
    ∧ (∀ (routes : List LiveTimeRow) (posArray : List VehicleEntity) (i : Nat),
      ((joinLivePosition routes posArray)[i]?).map FinalRow.displayFields =
        (routes[i]?).map LiveTimeRow.displayFields)
    ∧ (∀ (routes : List ScheduledDeparture) (timeArray : List TripUpdateEntity)
        (row : LiveTimeRow), row ∈ joinLiveTime routes timeArray →
      row.live_arrival_time = "No Live Data" ∨
      ∃ entity ∈ timeArray, entity.tripUpdate.trip.tripId = row.trip_id ∧
        ∃ entry ∈ entity.tripUpdate.stopTimeUpdate,
          lakesStopId.contains entry.stopId = true ∧
          row.live_arrival_time = convertTime entry.departure.time)
    ∧ (∀ (routes : List LiveTimeRow) (posArray : List VehicleEntity)
        (row : FinalRow), row ∈ joinLivePosition routes posArray →
      row.live_position = LivePosition.noLiveData ∨
      ∃ entity ∈ posArray, row.live_position = LivePosition.data entity.vehicle.position) := by
  refine ⟨?_, ?_, ?_, ?_, ?_, ?_⟩
  · intro routes timeArray
    simp [joinLiveTime]
  · intro routes posArray
    simp [joinLivePosition]
  · intro routes timeArray i
    rw [joinLiveTime, List.getElem?_map]
    cases routes[i]? <;> rfl
  · intro routes posArray i
    rw [joinLivePosition, List.getElem?_map]
    cases routes[i]? <;> rfl
  · intro routes timeArray row hrow
    rw [joinLiveTime, List.mem_map] at hrow
    obtain ⟨route, _, hrow⟩ := hrow
    cases hfind : timeArray.find? (fun entity =>
        entity.tripUpdate.trip.tripId == route.trip_id) with
    | none =>
        left
        rw [← hrow]
        simp only [hfind]
    | some e =>
        cases hfind2 : e.tripUpdate.stopTimeUpdate.find? (fun entry =>
            lakesStopId.contains entry.stopId) with
        | none =>
            left
            rw [← hrow]
            simp only [hfind, hfind2]
        | some t =>
            right
            have he := List.mem_of_find?_eq_some hfind
            have het := List.find?_some hfind
            have ht := List.mem_of_find?_eq_some hfind2
            have htc := List.find?_some hfind2
            rw [beq_iff_eq] at het
            have htrip : row.trip_id = route.trip_id := by rw [← hrow]
            refine ⟨e, he, by rw [het, htrip], t, ht, htc, ?_⟩
            rw [← hrow]
            simp only [hfind, hfind2]
  · intro routes posArray row hrow
    rw [joinLivePosition, List.mem_map] at hrow
    obtain ⟨route, _, hrow⟩ := hrow
    cases hfind : posArray.find? (fun entity =>
        entity.vehicle.trip.tripId == route.trip_id) with
    | none =>
        left
        rw [← hrow]
        simp only [hfind]
    | some e =>
        right
        refine ⟨e, List.mem_of_find?_eq_some hfind, ?_⟩
        rw [← hrow]
        simp only [hfind]

/-- A scheduled departure for the given trip id, used to exhibit that the
final rows do not depend on it. -/
def depT (t : String) : ScheduledDeparture :=
  ⟨⟨"66", "UQ Lakes", "S1", t, "City"⟩, "08:00:00"⟩

/-- C6 (counterexample): the final rows do not contain the trip_id field:
two departures that differ only in trip_id produce identical final rows,
because joinLivePosition rebuilds the row without the Trip ID key. -/
theorem finalRow_drops_trip_id :
    joinLivePosition (joinLiveTime [depT "T1"] []) [] =
      joinLivePosition (joinLiveTime [depT "T2"] []) [] ∧
    (depT "T1").trip_id ≠ (depT "T2").trip_id :=
  ⟨rfl, by decide⟩

/-- C6 (amended): each final row preserves every ScheduledDeparture field
except trip_id, which joinLivePosition drops; live_arrival_time and
live_position are the only added fields. -/
theorem joinLive_preserves_fields_except_trip_id :
    ∀ (routes : List ScheduledDeparture) (timeArray : List TripUpdateEntity)
      (posArray : List VehicleEntity) (i : Nat),
      ((joinLivePosition (joinLiveTime routes timeArray) posArray)[i]?).map
          (fun r => (r.route_short_name, r.route_long_name, r.service_id,
            r.heading_sign, r.scheduled_arrival_time)) =
        (routes[i]?).map (fun d => (d.route_short_name, d.route_long_name,
          d.service_id, d.heading_sign, d.scheduled_arrival_time)) := by
  intro routes timeArray posArray i
  rw [joinLivePosition, joinLiveTime, List.getElem?_map, List.getElem?_map]
  cases routes[i]? <;> rfl

/-- Witness for C5: the sentinel clauses at concrete rows with empty feeds. -/
theorem joinLive_left_join_spec_witness :
    ((⟨depT "T1", "No Live Data"⟩ : LiveTimeRow).live_arrival_time = "No Live Data" ∨
      ∃ entity ∈ ([] : List TripUpdateEntity),
        entity.tripUpdate.trip.tripId = (⟨depT "T1", "No Live Data"⟩ : LiveTimeRow).trip_id ∧
        ∃ entry ∈ entity.tripUpdate.stopTimeUpdate,
          lakesStopId.contains entry.stopId = true ∧
          (⟨depT "T1", "No Live Data"⟩ : LiveTimeRow).live_arrival_time =
            convertTime entry.departure.time) ∧
    ((⟨"66", "UQ Lakes", "S1", "City", "08:00:00", "No Live Data",
        LivePosition.noLiveData⟩ : FinalRow).live_position =
        LivePosition.noLiveData ∨
      ∃ entity ∈ ([] : List VehicleEntity),
        (⟨"66", "UQ Lakes", "S1", "City", "08:00:00", "No Live Data",
          LivePosition.noLiveData⟩ : FinalRow).live_position =
          LivePosition.data entity.vehicle.position) :=
  ⟨joinLive_left_join_spec.2.2.2.2.1 [depT "T1"] [] ⟨depT "T1", "No Live Data"⟩
      (by decide),
   joinLive_left_join_spec.2.2.2.2.2 [⟨depT "T1", "No Live Data"⟩] []
      ⟨"66", "UQ Lakes", "S1", "City", "08:00:00", "No Live Data",
        LivePosition.noLiveData⟩
      (List.mem_singleton.mpr rfl)⟩

/-! ## Claim about the final sort -/

theorem sortByTime_le_zero (a b : FinalRow) :
    decide (sortByTime a b ≤ 0) =
      jsLe a.scheduled_arrival_time b.scheduled_arrival_time := by
  simp only [sortByTime, jsGt, jsLe]
  split
  · rename_i h1
    simp [h1]
  · rename_i h1
    have h1f : jsLt b.scheduled_arrival_time a.scheduled_arrival_time = false := by
      simpa using h1
    rw [h1f]
    split <;> simp

theorem sortByTime_trans (a b c : FinalRow)
    (h1 : decide (sortByTime a b ≤ 0) = true)
    (h2 : decide (sortByTime b c ≤ 0) = true) :
    decide (sortByTime a c ≤ 0) = true := by
  rw [sortByTime_le_zero] at h1 h2 ⊢
  exact jsLe_trans h1 h2

theorem sortByTime_total (a b : FinalRow) :
    (decide (sortByTime a b ≤ 0) || decide (sortByTime b a ≤ 0)) = true := by
  rw [sortByTime_le_zero, sortByTime_le_zero]
  exact jsLe_total _ _

/-- C7: the final sort orders the rows ascending by Scheduled Arrival Time
under lexical string comparison, and it is stable: for every arrival time,
the rows carrying that time appear in the output in their input order. -/
theorem sortFinal_sorted_stable :
    ∀ finalTrips : List FinalRow,
      List.Pairwise (fun a b =>
        jsLe a.scheduled_arrival_time b.scheduled_arrival_time = true)
        (sortFinal finalTrips) ∧
      ∀ t : String,
        (sortFinal finalTrips).filter (fun r => r.scheduled_arrival_time == t) =
          finalTrips.filter (fun r => r.scheduled_arrival_time == t) := by
  intro finalTrips
  constructor
  · have hp := @List.sorted_mergeSort FinalRow
      (fun a b => decide (sortByTime a b ≤ 0))
      sortByTime_trans sortByTime_total finalTrips
    rw [sortFinal]
    exact hp.imp (fun h => by rwa [sortByTime_le_zero] at h)
  · intro t
    have hsub : (finalTrips.filter (fun r => r.scheduled_arrival_time == t)).Sublist
        finalTrips := List.filter_sublist _
    have hpw : (finalTrips.filter (fun r => r.scheduled_arrival_time == t)).Pairwise
        (fun a b => (decide (sortByTime a b ≤ 0)) = true) := by
      apply List.pairwise_of_forall_mem_list
      intro a ha b hb
      have hat : a.scheduled_arrival_time = t := by
        simpa using (List.mem_filter.mp ha).2
      have hbt : b.scheduled_arrival_time = t := by
        simpa using (List.mem_filter.mp hb).2
      rw [sortByTime_le_zero, hat, hbt]
      exact jsLe_refl t
    have hsl : (finalTrips.filter (fun r => r.scheduled_arrival_time == t)).Sublist
        (sortFinal finalTrips) := by
      rw [sortFinal]
      exact List.sublist_mergeSort sortByTime_trans sortByTime_total hpw hsub
    have hperm : (sortFinal finalTrips).Perm finalTrips := by
      rw [sortFinal]
      exact List.mergeSort_perm finalTrips _
    have hlen : ((sortFinal finalTrips).filter
        (fun r => r.scheduled_arrival_time == t)).length =
        (finalTrips.filter (fun r => r.scheduled_arrival_time == t)).length :=
      (hperm.filter _).length_eq
    have hself : (finalTrips.filter (fun r => r.scheduled_arrival_time == t)).filter
        (fun r => r.scheduled_arrival_time == t) =
        finalTrips.filter (fun r => r.scheduled_arrival_time == t) :=
      List.filter_eq_self.mpr (fun a ha => (List.mem_filter.mp ha).2)
    have hsl2 : (finalTrips.filter (fun r => r.scheduled_arrival_time == t)).Sublist
        ((sortFinal finalTrips).filter (fun r => r.scheduled_arrival_time == t)) := by
      have := hsl.filter (fun r => r.scheduled_arrival_time == t)
      rwa [hself] at this
    exact (hsl2.eq_of_length hlen.symm).symm

/-! ## Claim about the time-window computation -/

theorem padZero_length : ∀ n : Nat, n < 100 → (padZero n).length = 2 := by
  decide

/-- C8: add10Mins returns the time 10 minutes later as a zero-padded
HH:mm:ss string with minute and hour carry, wrapping past midnight without
any date component in the output; 23:55 yields 00:05:00. -/
theorem add10Mins_spec :
    (∀ hours minutes : Nat, hours < 24 → minutes < 60 →
      ∃ h2 m2 : Nat, h2 < 24 ∧ m2 < 60 ∧
        h2 * 60 + m2 = (hours * 60 + minutes + 10) % (24 * 60) ∧
        add10Mins hours minutes = padZero h2 ++ ":" ++ padZero m2 ++ ":00" ∧
        (padZero h2).length = 2 ∧ (padZero m2).length = 2)
    ∧ add10Mins 23 55 = "00:05:00" := by
  constructor
  · intro hours minutes hh hm
    refine ⟨(hours * 60 + minutes + 10) / 60 % 24, (hours * 60 + minutes + 10) % 60,
      Nat.mod_lt _ (by omega), Nat.mod_lt _ (by omega), by omega, rfl,
      padZero_length _ (by omega), padZero_length _ (by omega)⟩
  · decide

/-- Witness for C8 at the midnight-wrapping input 23:55. -/
theorem add10Mins_spec_witness :
    ∃ h2 m2 : Nat, h2 < 24 ∧ m2 < 60 ∧
      h2 * 60 + m2 = (23 * 60 + 55 + 10) % (24 * 60) ∧
      add10Mins 23 55 = padZero h2 ++ ":" ++ padZero m2 ++ ":00" ∧
      (padZero h2).length = 2 ∧ (padZero m2).length = 2 :=
  add10Mins_spec.1 23 55 (by decide) (by decide)

/-! ## Claims about the live feed cache -/

/-- C9: saving a snapshot with saveCache and reading it back with readCache
returns exactly the serialised payload that was written, so the snapshot
survives the cache round trip up to JSON re-serialisation (JSON.parse being
the external inverse of JSON.stringify). -/
theorem saveCache_readCache_roundtrip :
    ∀ (fs : String → Option String) (filename : String) (data : Json),
      readCache filename (saveCache filename data fs) = [Json.stringify data] := by
  intro fs filename data
  simp [readCache, saveCache]

/-- The outcome the spec requires of a refetch (spec section 4.3): both
feeds are fetched, the trip-update entities are filtered to those whose
stop-time updates include a UQ Lakes stop id, both payloads are persisted
to the cache, and the freshly fetched (filtered) payloads are what the
query continues with. -/
def refetchOutcome (tripUpdatesData : TripUpdatesFeed)
    (vehiclePositionsData : VehiclePositionsFeed) (result : StepResult) : Prop :=
  result.fetched = true ∧
  result.cache "trip_updates" = some (Json.stringify (Json.arr
    ((tripUpdatesData.entity.filter (fun entity =>
      entity.tripUpdate.stopTimeUpdate.any (fun e =>
        lakesStopId.contains e.stopId))).map TripUpdateEntity.toJson))) ∧
  result.cache "vehicle_positions" =
    some (Json.stringify vehiclePositionsData.toJson) ∧
  result.tripUpdateArray = [Json.stringify (Json.arr
    ((tripUpdatesData.entity.filter (fun entity =>
      entity.tripUpdate.stopTimeUpdate.any (fun e =>
        lakesStopId.contains e.stopId))).map TripUpdateEntity.toJson))] ∧
  result.vehiclePositionArray = [Json.stringify vehiclePositionsData.toJson]

/-- C10: whenever a cache file is absent for either feed, the live-data
step fetches both feeds, filters the trip-update entities to those with a
UQ Lakes stop, persists both payloads, and returns the fresh (filtered)
data for the current query. -/
theorem liveDataStep_cacheMiss_fetches :
    ∀ (fs : String → Option String) (tripUpdatesData : TripUpdatesFeed)
      (vehiclePositionsData : VehiclePositionsFeed)
      (cachedVpHeaderTimestamp nowMs : Int),
      fs "trip_updates" = none ∨ fs "vehicle_positions" = none →
      refetchOutcome tripUpdatesData vehiclePositionsData
        (liveDataStep fs tripUpdatesData vehiclePositionsData
          cachedVpHeaderTimestamp nowMs) := by
  intro fs tu vp ts nowMs _
  have hstep : liveDataStep fs tu vp ts nowMs = fetchBranch fs tu vp := by
    rw [liveDataStep]
    rfl
  rw [hstep, fetchBranch]
  refine ⟨rfl, ?_, ?_, ?_, ?_⟩ <;>
    simp [saveCache, readCache]

/-- Witness for C10: an empty cache directory with minimal feeds. -/
theorem liveDataStep_cacheMiss_fetches_witness :
    refetchOutcome ⟨0, []⟩ ⟨0, []⟩
      (liveDataStep (fun _ => none) ⟨0, []⟩ ⟨0, []⟩ 0 0) :=
  liveDataStep_cacheMiss_fetches (fun _ => none) ⟨0, []⟩ ⟨0, []⟩ 0 0 (Or.inl rfl)

/-- A cache state in which both feed files exist. -/
def cacheBothPresent : String → Option String :=
  fun name =>
    if name = "trip_updates" then some "[]"
    else if name = "vehicle_positions" then some "cached" else none

/-- A trip-updates feed with no entities. -/
def tuFeedEx : TripUpdatesFeed := ⟨1700000000, []⟩

/-- A vehicle-positions feed with no entities. -/
def vpFeedEx : VehiclePositionsFeed := ⟨1700000000, []⟩

/-- C1 (code bug): with both cache files present and a cached
vehicle-position header timestamp of 1699999701 epoch seconds at current
time 1700000000 epoch seconds (1700000000000 ms) — an elapsed time of 299
seconds, where the claim requires no refetch — the live-data step runs the
refetch branch anyway, because line 391 reads the cache without await and
the length of the resulting Promise is undefined, making the cache-miss
condition always true.  Moreover the staleness expression on line 412
subtracts the current time in milliseconds from the header timestamp in
seconds (reversed operands, mixed units), so even at exactly 300 seconds
elapsed — where the claim requires a refetch — it evaluates to false. -/
theorem staleness_check_code_bug :
    (liveDataStep cacheBothPresent tuFeedEx vpFeedEx 1699999701 1700000000000).fetched
      = true
    ∧ staleCheck 1699999700 1700000000000 = false := by
  constructor
  · rfl
  · decide

end BusParser
